import Mathlib

/-
Verification of the conversation-orchestration layer of the rodood python
backend (src/chatbot).  Each Python function that the claims touch is given a
shallow embedding below; I/O collaborators (the Facebook Graph API, the OpenAI
assistants API, the PostgreSQL store) are passed in as explicit data so that
every definition is executable.  Machine times are modelled as natural-number
Unix seconds, exactly as the source manipulates them via int(time.time()).
-/

set_option linter.unusedVariables false

/-! ## Basic helpers: Python string membership -/

/-- `needlePre n h` is `True` when `n` is an initial segment of `h`
(character-by-character); helper for the Python `in` operator on strings. -/
def needlePre : List Char → List Char → Bool
  | [], _ => true
  | _ :: _, [] => false
  | a :: as, b :: bs => a = b && needlePre as bs

/-- `occursIn n h`: the character list `n` occurs contiguously inside `h`. -/
def occursIn (n : List Char) : List Char → Bool
  | [] => n.isEmpty
  | c :: rest => needlePre n (c :: rest) || occursIn n rest

/-- Python's `needle in hay` on strings: substring containment. -/
def pyIn (needle hay : String) : Bool :=
  occursIn needle.data hay.data

/-- Python's `not s or s.strip() == ""`: the string is empty or
whitespace-only.  (`"".strip() == ""` holds vacuously, so the two Python
disjuncts collapse to this one test.) -/
def pyBlank (s : String) : Bool :=
  s.data.all Char.isWhitespace

/-! ## Data model

`messages_context` entries are Python dicts `{"role": r, "content": c}`.
On the main handler path the `content` value is sometimes a plain string and
sometimes the whole response dictionary `{"text": ...}` (assistant_handler.py
line 356 appends the response dict itself), so content is a sum. -/

/-- Content of a `messages_context` entry: either a plain string or the whole
response dictionary `{"text": s}` (as appended by assistant_handler.py:356). -/
inductive Content where
  | str : String → Content
  | dict : String → Content
  deriving DecidableEq

/-- One `{"role": _, "content": _}` entry of `messages_context`. -/
structure CtxEntry where
  role : String
  content : Content
  deriving DecidableEq

/-- The per-user state dictionary `user_state[senderPSID]` built in
assistant_handler.py (lines 242-255 and 265-279). -/
structure UserState where
  page_id : String
  message_count : Nat
  label : List String
  conversation : List String
  conversation_id : Option String
  new_user : Bool
  thread_id : Option String
  run_id : Option String
  messages_context : List CtxEntry
  last_message_time : Option Nat
  has_stop_message : Bool
  last_message : String
  rank : Option Int
  deriving DecidableEq

/-- A message of a Facebook conversation as returned by
`get_messages_for_conversation` (handle_message.py:123-144): the Graph API
returns `{"message": ..., "from": {"id": ...}, ...}`. -/
structure FbMessage where
  fromId : String
  message : String
  deriving DecidableEq

/-! ## Response Gate, implementation 1: `check_greeting_message`
(assistant_handler.py lines 100-165).

Unicode NFC normalization (`unicodedata.normalize('NFC', ·)`) is kept
abstract as a string transformer `nfc` supplied by the caller. -/

/-- `check_greeting_message` (assistant_handler.py:100-165).  Returns `false`
when the bot should respond and `true` when the bot must stay silent.
Inputs: the page's configured greeting, the conversation id looked up for the
user (`None` when no conversation exists), and the conversation's messages as
returned by the Graph API. -/
def check_greeting_message (nfc : String → String) (greeting : String)
    (conversationId : Option String) (allMessages : List FbMessage)
    (pageId : String) : Bool :=
  -- Case 1: empty greeting -> bot responds to all users (returns False)
  if pyBlank greeting then false
  else
    match conversationId with
    -- no conversation -> new user, bot responds (returns False)
    | none => false
    | some _ =>
      -- only messages sent by the page
      let bot_messages := allMessages.filter (fun m => m.fromId = pageId)
      -- last 4 bot messages (bot_messages[-4:] if len > 4 else bot_messages)
      let last_bot_messages :=
        if bot_messages.length > 4 then
          bot_messages.drop (bot_messages.length - 4)
        else bot_messages
      -- the for-loop returns False on the first raw or NFC-normalized match
      if last_bot_messages.any (fun m =>
          pyIn greeting m.message || pyIn (nfc greeting) (nfc m.message)) then
        false
      else
        -- greeting not found in any bot message -> deactivate bot
        true

/-! ## Response Gate, implementation 2: `should_bot_respond`
(greeting_checker.py lines 64-413).

`should_bot_respond` is a synchronous `def`, but at line 104 it calls the
`async def get_messages_from_facebook_api` WITHOUT `await`.  In Python this
builds a coroutine object and runs none of its body.  A coroutine object is
truthy, so the `if api_messages:` branch at line 107 is taken, and the
`len(api_messages)` inside the print call at line 108 raises
`TypeError: object of type 'coroutine' has no len()`.  The exception escapes
to the `except Exception` handler at line 384; the entire database fallback
(lines 134-382) is dead code.  Inside that handler, line 393 calls
`get_messages_from_facebook_api(sender_id, page_id)` with only two arguments
while the function requires three, raising a `TypeError` at the call itself,
which the inner `except` at line 407 swallows; control falls through to
`return True` at line 413. -/

/-- Result of the `try` body of `should_bot_respond`: either a returned value
or an exception escaping to the `except Exception` handler at line 384. -/
inductive PyFlow (α : Type) where
  | ok : α → PyFlow α
  | exn : PyFlow α
  deriving DecidableEq

/-- The `try` body of `should_bot_respond` (greeting_checker.py:87-382). -/
def should_bot_respond_try (greeting : String) : PyFlow Bool :=
  -- Case 1: empty greeting message -> bot responds to ALL users
  if pyBlank greeting then .ok true
  else
    -- api_messages = get_messages_from_facebook_api(...)   <- missing await:
    -- api_messages is a (truthy) coroutine object, and len(api_messages)
    -- raises TypeError before any message is inspected.  The database
    -- fallback of lines 134-382 is therefore unreachable.
    .exn

/-- The `except Exception` handler of `should_bot_respond`
(greeting_checker.py:384-413): the emergency Facebook lookup itself raises a
`TypeError` (wrong arity) that is swallowed, and the handler returns `True`
("on all errors, default to responding"). -/
def should_bot_respond_on_error : Bool :=
  true

/-- `should_bot_respond` (greeting_checker.py:64-413).  `true` means the bot
responds. -/
def should_bot_respond (greeting : String) : Bool :=
  match should_bot_respond_try greeting with
  | .ok b => b
  | .exn => should_bot_respond_on_error

/-- C1: For every (user, channel) pair whose channel has a non-empty marker
(greeting) text and whose last 4 channel-sent messages do not contain the
marker (raw or NFC-normalized), the should-respond gate returns false.
The claim is the documented contract of `should_bot_respond` itself, and the
sibling implementation `check_greeting_message` honours it (second conjunct:
it returns `true` = deactivate, so the gate is false), but `should_bot_respond`
returns `True` (respond) on such an input because the un-awaited coroutine of
line 104 sends every non-empty-greeting call into the exception path.
Failing input: greeting "Welcome", channel history `[{"from": page1,
"message": "hello"}]` in an existing conversation. -/
theorem c1_gate_returns_true_despite_missing_marker :
    (pyBlank "Welcome" = false ∧ pyIn "Welcome" "hello" = false) ∧
      should_bot_respond "Welcome" = true ∧
      check_greeting_message id "Welcome" (some "conv1")
        [{ fromId := "page1", message := "hello" }] "page1" = true := by
  refine ⟨⟨by decide, by decide⟩, by decide, by decide⟩

/-! ## AI Session Manager: `get_chatgpt_response`
(handeling_User.py lines 28-280).

Every caller in the repository passes `user_state[senderPSID]` — the
PER-USER state dictionary — as the function's `user_state` argument
(assistant_handler.py:342, fast_message_handler.py:188).  The body's first
state access, `existing_thread_id = user_state[senderPSID].get("thread_id")`
at handeling_User.py:42, therefore indexes that per-user dictionary with the
sender's PSID — a key the per-user dictionary never contains (its keys are
the fixed field names "page_id", "message_count", ...).  That `user_state[
senderPSID]` subscript raises `KeyError` on every call, and the function's
own `except Exception` at line 277 catches it and returns the static apology
dictionary.

Consequently lines 44-276 are dead code on every call: no thread is ever
created (`threads.create`, line 80, unreachable), the active-run wait loop of
lines 190-216 never runs, no message or run is ever submitted
(`runs.create`, lines 123 and 214, unreachable), and none of the
`messages_context` appends inside this function (lines 106-120, 164-167,
185-188, 256-259) ever executes.  Only lines 30-38 run before the raise:
the config lookup and `load_client_assistant` (an OpenAI
`assistants.retrieve` API request).

The OpenAI collaborator is still passed in as a record (the thread id a
`threads.create` would return and the outcome of a submitted run) to mirror
the call's collaborators; the real control flow never consults it. -/

/-- Outcome the completion service would give a submitted run.  The
orchestration layer never reaches a submission (see the section comment), so
this collaborator is never consulted. -/
inductive RunOutcome where
  | completed : String → RunOutcome
  | failed
  deriving DecidableEq

/-- External AI collaborator for one call: the id a `threads.create` call
would return and the outcome of a submitted run.  Never consulted by the
real control flow of `get_chatgpt_response`. -/
structure AiService where
  freshThreadId : String
  runOutcome : RunOutcome
  deriving DecidableEq

/-- The static apology of handeling_User.py:279, returned by the
`except Exception` handler (the same text also sits at the unreachable
lines 174 and 273). -/
def run_error_message : String :=
  "عذراً، حدث خطأ في معالجة رسالتك. يرجى المحاولة مرة أخرى."

/-- What one call to `get_chatgpt_response` did: the `respond["text"]` value
returned, the `user_state[senderPSID]` dict afterwards, the thread on which
`messages.create`/`runs.create` were issued (`none`: never reached), whether
`threads.create` was called, whether `runs.create` was called, and the
thread id stored in `user_threads[f"{s}_{p}"]` afterwards. -/
structure ChatResult where
  respondText : String
  state : UserState
  threadUsed : Option String
  createdThread : Bool
  runSubmitted : Bool
  globalAfter : Option String
  deriving DecidableEq

/-- The `try` body of `get_chatgpt_response` (handeling_User.py:29-276):
lines 30-38 run (config lookup, the `assistants.retrieve` request, the
conversation key), then line 42 subscripts the per-user state dict with the
sender's PSID and raises `KeyError`, escaping to the handler at line 277.
The thread-continuity, thread-creation, wait-loop and run-submission code of
lines 44-276 is unreachable. -/
def get_chatgpt_response_try (svc : AiService) (greetingCfg : String)
    (userMessage : String) (globalThread : Option String)
    (st : UserState) : PyFlow ChatResult :=
  -- existing_thread_id = user_state[senderPSID].get("thread_id")   (line 42)
  -- `user_state` here is the per-user dict the caller passed; subscripting it
  -- with senderPSID raises KeyError
  .exn

/-- `get_chatgpt_response` (handeling_User.py:28-280).  `greetingCfg` is
`config.get_greeting_message(page_id)` (empty string for "none configured");
`globalThread` is `user_threads[f"{senderPSID}_{page_id}"]['thread_id']`
when that key is present.  The `try` body always raises (line 42), so the
`except Exception` at line 277 returns the static apology dict with the
state untouched: no thread created, no run submitted, the global thread
entry unchanged. -/
def get_chatgpt_response (svc : AiService) (greetingCfg : String)
    (userMessage : String) (globalThread : Option String)
    (st : UserState) : ChatResult :=
  match get_chatgpt_response_try svc greetingCfg userMessage globalThread st with
  | .ok r => r
  | .exn =>
    -- lines 277-280: `return {"text": error_message}`
    { respondText := run_error_message, state := st, threadUsed := none,
      createdThread := false, runSubmitted := false, globalAfter := globalThread }

/-! ## Turn Processor: `get_assistant_response`
(assistant_handler.py lines 174-407).

Collaborators are passed in: the current contents of the module-level
`processed_message_ids` set (modelled as a duplicate-free list of ids), the
database row the `SELECT ... WHERE sender_id = %s AND page_id = %s` of lines
216-221 returns (already parsed into a `UserState`), the result the
`check_greeting_message` call of line 261 would produce, the page
configuration, the OpenAI collaborator, and the sentiment-analysis result.

The Python `processed_message_ids` is a `set`; it is modelled as a list with
insertion at the tail; the `pop()`-loop eviction removes 100
implementation-chosen elements, modelled as dropping the 100 head elements. -/

/-- The inbound message dictionary: `mid` and `text` keys (each optional — an
attachment delivery has no `text`). -/
structure InboundMsg where
  mid : Option String
  text : Option String
  deriving DecidableEq

/-- Dedup bookkeeping of assistant_handler.py:194-202: insert the id, then if
the set has grown past 1000, pop 100 entries. -/
def insert_and_evict (processed : List String) (mid : String) : List String :=
  let l := processed ++ [mid]
  if l.length > 1000 then l.drop 100 else l

/-- Default end message of assistant_handler.py:328, used when the page
configuration has none. -/
def default_end_message : String :=
  "Thank you for chatting with us today. We've reached the end of our conversation."

/-- Attachment acknowledgement of assistant_handler.py:400. -/
def attachment_ack_message : String :=
  "I've received your attachment. If you have any specific questions about it, please let me know."

/-- Fallback for non-text, non-attachment messages (assistant_handler.py:405). -/
def non_text_fallback_message : String :=
  "I didn't understand your message. Please try sending a text message."

/-- Everything `get_assistant_response` reads from its collaborators. -/
structure HandlerEnv where
  /-- contents of `processed_message_ids` before the call -/
  processed : List String
  /-- parsed row returned by `SELECT ... WHERE sender_id = %s AND page_id = %s` -/
  dbRow : Option UserState
  /-- result the `await check_greeting_message(...)` of line 261 produces
  (`true` = greeting absent, bot must NOT respond) -/
  gateBlocks : Bool
  /-- `config.get_max_messages(page_id)` -/
  maxMessages : Nat
  /-- `config.get_end_message(page_id)` (empty = not configured) -/
  endMessage : String
  /-- `config.get_greeting_message(page_id)` as read inside get_chatgpt_response -/
  greetingCfg : String
  /-- `user_threads[f"{senderPSID}_{page_id}"]['thread_id']` if present -/
  globalThread : Option String
  /-- the OpenAI collaborator -/
  svc : AiService
  /-- `sentiment.sentiment_analysis(...)` rank when it returns a valid pair -/
  sentimentRank : Option Int
  /-- `int(time.time())` at line 362 -/
  now : Nat
  /-- the inbound message has an `attachments` key (only read when `text` is
  absent) -/
  hasAttachments : Bool

/-- Observable outcome of one `get_assistant_response` call. -/
structure HandlerResult where
  /-- `processed_message_ids` after the call -/
  processed : List String
  /-- the call returned `("DUPLICATE_MESSAGE", 200)` -/
  duplicate : Bool
  /-- `handeling_User.get_chatgpt_response` was invoked (line 342).  The call
  reaches the OpenAI client (the `assistants.retrieve` of
  `load_client_assistant`) before dying at its line-42 KeyError, so no
  completion is ever produced -/
  aiCalled : Bool
  /-- texts pushed through `callSendAPI` by this call, in order -/
  sent : List String
  /-- state handed to `save_user_state_to_db` (none: no save performed) -/
  saved : Option UserState
  /-- value written to `user_state[senderPSID]` (none: left untouched) -/
  stateAfter : Option UserState
  /-- the call returned `("END_OF_CONVERSATION", 200)` -/
  returnedEnd : Bool
  deriving DecidableEq

/-- `get_assistant_response` (assistant_handler.py:174-407). -/
def get_assistant_response (env : HandlerEnv) (msg : InboundMsg) : HandlerResult :=
  -- lines 186-202: duplicate check on `mid`, then insertion + bounded eviction
  let dedup : Option (List String) :=
    match msg.mid with
    | none => some env.processed
    | some mid =>
      if mid ∈ env.processed then none
      else some (insert_and_evict env.processed mid)
  match dedup with
  | none =>
    -- duplicate: return ("DUPLICATE_MESSAGE", 200) with no other effect
    { processed := env.processed, duplicate := true, aiCalled := false,
      sent := [], saved := none, stateAfter := none, returnedEnd := false }
  | some processed =>
    match msg.text with
    | none =>
      -- lines 395-407: no text; acknowledge attachments or send the fallback
      let reply := if env.hasAttachments then attachment_ack_message
                   else non_text_fallback_message
      { processed := processed, duplicate := false, aiCalled := false,
        sent := [reply], saved := none, stateAfter := none,
        returnedEnd := false }
    | some user_message =>
      -- lines 207-310: load the state row for (senderPSID, page_id), else
      -- build a fresh state; the greeting check's result is bound and never
      -- read again, exactly as in the source (line 261)
      let st : UserState :=
        match env.dbRow with
        | some row => row
        | none =>
          let greeting_response := env.gateBlocks
          { page_id := "", message_count := 1, label := [],
            conversation := [], conversation_id := none, new_user := true,
            thread_id := none, run_id := none, messages_context := [],
            last_message_time := none, has_stop_message := false,
            last_message := user_message, rank := none }
      -- lines 312-319: bump the counter, record the inbound text, clear the
      -- stop flag
      let st := { st with
        message_count := st.message_count + 1,
        last_message := user_message,
        has_stop_message := false }
      if st.message_count > env.maxMessages then
        -- lines 321-339: end of conversation; send the configured end
        -- message, reset the counter, raise the stop flag, save, return
        let endMsg := if env.endMessage = "" then default_end_message
                      else env.endMessage
        let st := { st with message_count := 0, has_stop_message := true }
        { processed := processed, duplicate := false, aiCalled := false,
          sent := [endMsg], saved := some st, stateAfter := some st,
          returnedEnd := true }
      else
        -- line 342: AI call
        let chat := get_chatgpt_response env.svc env.greetingCfg user_message
          env.globalThread st
        -- lines 344-359: append the user message AND the whole response
        -- dictionary to the context.  (The appends inside get_chatgpt_response
        -- are dead code behind its line-42 KeyError, so these two are the only
        -- context entries a turn adds.)
        let st := { chat.state with
          messages_context := chat.state.messages_context ++
            [({ role := "user", content := .str user_message } : CtxEntry),
             ({ role := "assistant", content := .dict chat.respondText } : CtxEntry)] }
        -- line 362: stamp the time; lines 364-387: sentiment rank
        let st := { st with last_message_time := some env.now }
        let st := match env.sentimentRank with
          | some r => { st with rank := some r }
          | none => st
        -- line 390: save; line 393: return the response
        { processed := processed, duplicate := false, aiCalled := true,
          sent := [], saved := some st, stateAfter := some st,
          returnedEnd := false }

/-! ## Fast handler context update (fast_message_handler.py lines 333-342).

After a turn the fast handler appends the user message and the reply, then
keeps only the last 20 entries (`messages_context[-20:]`). -/

/-- `messages_context[-20:]` applied when the list is longer than 20
(fast_message_handler.py:341-342). -/
def fast_trim_context (ctx : List CtxEntry) : List CtxEntry :=
  if ctx.length > 20 then ctx.drop (ctx.length - 20) else ctx

/-- The context update of fast_message_handler.py:334-342: append the user
message and the AI reply, then trim to the last 20 entries. -/
def fast_update_context (ctx : List CtxEntry) (userMessage aiResponse : String) :
    List CtxEntry :=
  fast_trim_context (ctx ++
    [({ role := "user", content := .str userMessage } : CtxEntry),
     ({ role := "assistant", content := .str aiResponse } : CtxEntry)])

/-! ## Association-list helpers for the module-level Python dictionaries
(`messages_queue`, `user_state`, `user_threads`). -/

/-- Python `d[k]` lookup returning `None` when absent.  Entries are kept
unique per key by `setAssoc`, so `find?` is the dictionary lookup. -/
def lookupAssoc {α : Type} (l : List (String × α)) (k : String) : Option α :=
  (l.find? (fun kv => kv.1 = k)).map (fun kv => kv.2)

/-- Python `d[k] = v`: replace the value at the first (under `setAssoc`
discipline: only) entry with key `k`, keeping insertion order, or append a
fresh entry — exactly a CPython dict assignment. -/
def setAssoc {α : Type} : List (String × α) → String → α → List (String × α)
  | [], k, v => [(k, v)]
  | kv :: rest, k, v =>
    if kv.1 = k then (k, v) :: rest else kv :: setAssoc rest k v

/-- Python `del d[k]`. -/
def removeAssoc {α : Type} (l : List (String × α)) (k : String) :
    List (String × α) :=
  l.filter (fun kv => ¬ kv.1 = k)

/-! ## Batching Queue: `merge_user_messages`
(handle_message.py lines 233-352).

`current_unix_time = int(time.time())` is stamped at the top of the call
(line 259); the flush test at line 276 compares a fresh `time.time()` against
that same stamp, so the elapsed time it sees is the duration of this very
call, not the age of the batch.  The two clock reads are modelled as `tEntry`
(line 259) and `tCheck` (line 276) with `tCheck - tEntry` the wall time the
call itself consumed. -/

/-- One `messages_queue[senderPSID]` entry (handle_message.py:264-268). -/
structure BatchEntry where
  page_id : String
  user_messages_queue : List String
  first_message_time : Nat
  deriving DecidableEq

/-- Result of one `merge_user_messages` call: the queue afterwards and, when a
flush happened, the merged turn string handed to `get_assistant_response`
(the source forwards it only when non-empty but clears the entry in every
flush). -/
structure AddResult where
  queue : List (String × BatchEntry)
  flushed : Option String
  deriving DecidableEq

/-- `merge_user_messages` (handle_message.py:233-352) for a text message.
`tEntry` is `int(time.time())` of line 259 and `tCheck` the `time.time()` of
the flush test at line 276. -/
def merge_user_messages (q : List (String × BatchEntry)) (senderPSID : String)
    (text : Option String) (pageId : String) (tEntry tCheck : Nat) : AddResult :=
  match text with
  | none =>
    -- "Received message is not text": nothing happens
    { queue := q, flushed := none }
  | some t =>
    -- lines 263-271: create the entry if absent (stamping first_message_time
    -- with current_unix_time), then append the text; `e` is the value
    -- `messages_queue[senderPSID]` holds after the append
    let e :=
      match lookupAssoc q senderPSID with
      | some e0 => { e0 with user_messages_queue := e0.user_messages_queue ++ [t] }
      | none =>
        { page_id := pageId, user_messages_queue := [t],
          first_message_time := tEntry }
    let q1 := setAssoc q senderPSID e
    -- lines 275-276: flush when the queue reached max_messages (2) or when
    -- time.time() - current_unix_time >= 30 — i.e. this very call took 30s
    if e.user_messages_queue.length ≥ 2 || tCheck - tEntry ≥ 30 then
      -- lines 280-306: join with a single space in arrival order, delete
      -- the entry, forward the merged turn
      { queue := removeAssoc q1 senderPSID,
        flushed := some (String.intercalate " " e.user_messages_queue) }
    else
      -- the single-message block of lines 308-342 is guarded by the same
      -- `time.time() - current_unix_time >= max_time` comparison and is
      -- likewise dead for a sub-30s call; nothing further happens
      { queue := q1, flushed := none }

/-- One pass of the background sweep `process_message_queue_after_delay`
(handle_message.py:355-427): every entry holding exactly one message whose
`first_message_time` is at least 2 seconds old is forwarded as its own turn
and removed. -/
def process_message_queue_once (q : List (String × BatchEntry)) (now : Nat) :
    List (String × BatchEntry) × List String :=
  let fire := fun (kv : String × BatchEntry) =>
    kv.2.user_messages_queue.length = 1 && now - kv.2.first_message_time ≥ 2
  (q.filter (fun kv => ¬ fire kv = true),
   (q.filter (fun kv => fire kv = true)).map
     (fun kv => kv.2.user_messages_queue.headD ""))

/-- Reachability invariant of `messages_queue`: every pending entry holds at
least one message (entries are created non-empty and deleted whole). -/
def QueueInv (q : List (String × BatchEntry)) : Prop :=
  ∀ kv ∈ q, kv.2.user_messages_queue ≠ []

/-! ## Conversation Store: `save_user_state_to_db`
(db_persistence_fixed.py lines 12-167) and the row load of
assistant_handler.py lines 216-221.

The store is modelled as a list of `user_states` rows.  The save's existence
probe (line 36) and its UPDATE (lines 96-117) filter on `sender_id` alone —
no `page_id` in either WHERE clause — while the handler's SELECT filters on
the (sender_id, page_id) pair. -/

/-- A `user_states` row with the columns the code reads and writes. -/
structure DbRow where
  sender_id : String
  page_id : String
  message_count : Nat
  labels : List String
  conversation : List String
  conversation_id : Option String
  is_new_user : Bool
  thread_id : Option String
  run_id : Option String
  messages_context : List CtxEntry
  has_stop_message : Bool
  last_message : String
  rank : Option Int
  deriving DecidableEq

/-- The column values a save writes (db_persistence_fixed.py:96-135), taken
from the in-memory state. -/
def rowOfState (sender : String) (st : UserState) : DbRow :=
  { sender_id := sender, page_id := st.page_id,
    message_count := st.message_count, labels := st.label,
    conversation := st.conversation, conversation_id := st.conversation_id,
    is_new_user := st.new_user, thread_id := st.thread_id,
    run_id := st.run_id, messages_context := st.messages_context,
    has_stop_message := st.has_stop_message, last_message := st.last_message,
    -- db_persistence_fixed.py:91 reads state.get('Rank') — capital R — but
    -- the state dicts carry lowercase 'rank', so the saved rank is always
    -- NULL, whatever the in-memory rank held
    rank := none }

/-- `save_user_state_to_db` (db_persistence_fixed.py:12-167).
`SELECT COUNT(*) FROM user_states WHERE sender_id = %s` decides between
`UPDATE ... WHERE sender_id = %s` — which rewrites every row of that sender,
whatever its page — and a plain INSERT. -/
def save_user_state_to_db (db : List DbRow) (sender : String) (st : UserState) :
    List DbRow :=
  if db.any (fun r => r.sender_id = sender) then
    db.map (fun r => if r.sender_id = sender then rowOfState sender st else r)
  else
    db ++ [rowOfState sender st]

/-- The state-row load of assistant_handler.py:216-221:
`SELECT ... FROM user_states WHERE sender_id = %s AND page_id = %s`. -/
def load_user_state_row (db : List DbRow) (sender pageId : String) : Option DbRow :=
  db.find? (fun r => r.sender_id = sender ∧ r.page_id = pageId)

/-! ## Startup restoration: `restore_user_states_from_database`
(main_simple.py lines 55-128) and the per-turn thread continuity of
`get_chatgpt_response`.

Restoration fills two module dictionaries: `user_state`, keyed by `sender_id`
alone, and `user_threads`, keyed by `f"{sender_id}+{page_id}"` (line 107) —
note the `+`, while `get_chatgpt_response` looks threads up under
`f"{senderPSID}_{page_id}"` (handeling_User.py:38). -/

/-- main_simple.py lines 90-103: the in-memory state built from a row. -/
def stateOfRow (r : DbRow) : UserState :=
  { page_id := r.page_id, message_count := r.message_count,
    label := r.labels, conversation := r.conversation,
    conversation_id := r.conversation_id, new_user := r.is_new_user,
    thread_id := r.thread_id, run_id := r.run_id,
    messages_context := r.messages_context, last_message_time := none,
    has_stop_message := r.has_stop_message, last_message := r.last_message,
    rank := r.rank }

/-- The two in-memory indexes of main_simple.py: `user_state` (keyed by
sender) and `user_threads` (keyed by a sender/page compound, holding the
thread id). -/
structure MemoryMaps where
  user_state : List (String × UserState)
  user_threads : List (String × String)

/-- One iteration of the restoration loop (main_simple.py:79-118): load the
row into `user_state[sender_id]` and, when it has a thread, into
`user_threads[f"{sender_id}+{page_id}"]` (line 107 — note the `+`
separator). -/
def restoreStep (maps : MemoryMaps) (r : DbRow) : MemoryMaps :=
  { user_state := setAssoc maps.user_state r.sender_id (stateOfRow r),
    user_threads :=
      match r.thread_id with
      | some t => setAssoc maps.user_threads (r.sender_id ++ "+" ++ r.page_id) t
      | none => maps.user_threads }

/-- `restore_user_states_from_database` (main_simple.py:55-128): every row
matching `is_new_user = false OR message_count > 0` is loaded into
`user_state[sender_id]`, and rows with a thread also into
`user_threads[f"{sender_id}+{page_id}"]`. -/
def restore_user_states_from_database (rows : List DbRow) : MemoryMaps :=
  (rows.filter (fun r => !r.is_new_user || r.message_count > 0)).foldl
    restoreStep { user_state := [], user_threads := [] }

/-- One post-restart turn for `(s, p)` at the `get_chatgpt_response` level:
look up the in-memory state (building the handler's fresh default when the
sender is unknown, assistant_handler.py:265-279), look up
`user_threads[f"{s}_{p}"]`, run `get_chatgpt_response`, and write back what
the call changed: the state dict entry always, the `user_threads` entry only
when a thread was actually used (the real call dies at handeling_User.py:42
before the sync of lines 67-73/84-90, so `user_threads` is never written). -/
def thread_turn (maps : MemoryMaps) (svc : AiService) (greetingCfg : String)
    (s p u : String) : MemoryMaps × Option String × Bool :=
  let st :=
    match lookupAssoc maps.user_state s with
    | some st => st
    | none =>
      { page_id := p, message_count := 1, label := [], conversation := [],
        conversation_id := none, new_user := true, thread_id := none,
        run_id := none, messages_context := [], last_message_time := none,
        has_stop_message := false, last_message := u, rank := none }
  let key := s ++ "_" ++ p
  let r := get_chatgpt_response svc greetingCfg u (lookupAssoc maps.user_threads key) st
  ({ user_state := setAssoc maps.user_state s r.state,
     user_threads :=
       match r.threadUsed with
       | some tid => setAssoc maps.user_threads key tid
       | none => maps.user_threads },
   r.threadUsed, r.createdThread)

/-- The in-memory maps after `n` turns for `(s, p)` following a restore. -/
def mapsAfterTurns (maps : MemoryMaps) (svcs : Nat → AiService)
    (greetingCfg : String) (s p : String) (us : Nat → String) :
    Nat → MemoryMaps
  | 0 => maps
  | n + 1 =>
    (thread_turn (mapsAfterTurns maps svcs greetingCfg s p us n) (svcs n)
      greetingCfg s p (us n)).1

/-- The `(threadUsed, createdThread)` outcome of the `(n+1)`-st turn:
the thread the turn submitted to (`none`: it submitted to no session) and
whether it created a new external session. -/
def turnOutcome (maps : MemoryMaps) (svcs : Nat → AiService)
    (greetingCfg : String) (s p : String) (us : Nat → String) (n : Nat) :
    Option String × Bool :=
  (thread_turn (mapsAfterTurns maps svcs greetingCfg s p us n) (svcs n)
    greetingCfg s p (us n)).2

/-! ## Helper lemmas -/

lemma lookup_setAssoc_self {α : Type} (l : List (String × α)) (k : String) (v : α) :
    lookupAssoc (setAssoc l k v) k = some v := by
  induction l with
  | nil => simp [setAssoc, lookupAssoc, List.find?]
  | cons hd tl ih =>
    by_cases hh : hd.1 = k
    · simp [setAssoc, hh, lookupAssoc, List.find?]
    · simp only [setAssoc, if_neg hh]
      unfold lookupAssoc
      rw [List.find?]
      simp only [hh, decide_eq_true_eq, decide_False]
      exact ih

lemma mem_setAssoc {α : Type} {l : List (String × α)} {k : String} {v : α}
    {kv : String × α} (h : kv ∈ setAssoc l k v) : kv ∈ l ∨ kv = (k, v) := by
  induction l with
  | nil => simpa [setAssoc] using h
  | cons hd tl ih =>
    by_cases hh : hd.1 = k
    · simp only [setAssoc, if_pos hh, List.mem_cons] at h
      rcases h with h | h
      · exact Or.inr h
      · exact Or.inl (List.mem_cons_of_mem _ h)
    · simp only [setAssoc, if_neg hh, List.mem_cons] at h
      rcases h with h | h
      · exact Or.inl (by simp [h])
      · rcases ih h with h' | h'
        · exact Or.inl (List.mem_cons_of_mem _ h')
        · exact Or.inr h'

lemma mem_removeAssoc {α : Type} {l : List (String × α)} {k : String}
    {kv : String × α} (h : kv ∈ removeAssoc l k) : kv ∈ l :=
  List.mem_of_mem_filter h

lemma mem_insert_and_evict (l : List String) (mid : String) :
    mid ∈ insert_and_evict l mid := by
  simp only [insert_and_evict]
  split
  · next h =>
    have hlen : 100 ≤ l.length := by
      simp only [List.length_append, List.length_singleton] at h
      omega
    rw [List.drop_append_of_le_length hlen]
    simp
  · simp

lemma length_insert_and_evict (l : List String) (mid : String)
    (h : l.length + 1 > 1000) :
    (insert_and_evict l mid).length = l.length + 1 - 100 := by
  simp only [insert_and_evict]
  split
  · next h' =>
    rw [List.length_drop]
    simp only [List.length_append, List.length_singleton]
  · next h' =>
    exfalso
    apply h'
    simp only [List.length_append, List.length_singleton]
    omega

lemma handler_not_dup (env : HandlerEnv) (msg : InboundMsg) (mid : String)
    (hmid : msg.mid = some mid) (hout : mid ∉ env.processed) :
    (get_assistant_response env msg).processed = insert_and_evict env.processed mid ∧
    (get_assistant_response env msg).duplicate = false := by
  unfold get_assistant_response
  rw [hmid]
  simp only [hout, if_neg, ite_false, not_false_eq_true]
  cases htext : msg.text with
  | none => simp
  | some u =>
    cases hrow : env.dbRow with
    | none => simp only []; split <;> simp
    | some row => simp only []; split <;> simp

/-- A concrete OpenAI collaborator used by the concrete scenarios below. -/
def baseSvc : AiService :=
  { freshThreadId := "thread_fresh", runOutcome := .completed "hello from ai" }

/-- A concrete collaborator environment used by the concrete scenarios below;
individual scenarios override the relevant fields. -/
def baseEnv : HandlerEnv :=
  { processed := [], dbRow := none, gateBlocks := false, maxMessages := 10,
    endMessage := "", greetingCfg := "", globalThread := none, svc := baseSvc,
    sentimentRank := none, now := 1700000000, hasAttachments := false }

/-- C9: duplicate deliveries of a `mid` still in `processed_message_ids` are
answered with the duplicate indicator and zero side effects (the returned
record equals the no-effect record); a first delivery is processed
(`duplicate = false`), its `mid` is retained, and when the set's cardinality
exceeds 1000 exactly 100 entries are evicted. -/
theorem c9_dedup_discards_and_evicts (env : HandlerEnv) (msg : InboundMsg)
    (mid : String) (hmid : msg.mid = some mid) :
    (mid ∈ env.processed →
      get_assistant_response env msg =
        { processed := env.processed, duplicate := true, aiCalled := false,
          sent := [], saved := none, stateAfter := none, returnedEnd := false }) ∧
    (mid ∉ env.processed →
      (get_assistant_response env msg).duplicate = false ∧
      mid ∈ (get_assistant_response env msg).processed ∧
      (env.processed.length + 1 > 1000 →
        (get_assistant_response env msg).processed.length =
          env.processed.length + 1 - 100)) := by
  constructor
  · intro hin
    unfold get_assistant_response
    rw [hmid]
    simp [hin]
  · intro hout
    obtain ⟨hp, hd⟩ := handler_not_dup env msg mid hmid hout
    refine ⟨hd, ?_, ?_⟩
    · rw [hp]; exact mem_insert_and_evict env.processed mid
    · intro hlen
      rw [hp]
      exact length_insert_and_evict env.processed mid hlen

/-- The environment of the C9 witness: "m1" was already seen. -/
def envC9 : HandlerEnv := { baseEnv with processed := ["m1"] }

/-- The inbound message of the C9 witness: a redelivery of "m1". -/
def msgC9 : InboundMsg := { mid := some "m1", text := some "hi" }

/-- Witness for C9: the concrete redelivery of "m1" is discarded with no side
effects. -/
theorem c9_dedup_discards_and_evicts_witness :
    get_assistant_response envC9 msgC9 =
      { processed := envC9.processed, duplicate := true, aiCalled := false,
        sent := [], saved := none, stateAfter := none, returnedEnd := false } :=
  (c9_dedup_discards_and_evicts envC9 msgC9 "m1" rfl).1 (by decide)

/-- The environment of the C2 scenario: a brand-new user (no store row) whose
greeting check comes back `true` = "bot must NOT respond"
(`gateBlocks = true`). -/
def envC2 : HandlerEnv := { baseEnv with dbRow := none, gateBlocks := true }

/-- The inbound turn of the C2 scenario. -/
def msgC2 : InboundMsg := { mid := some "m2", text := some "how much is it?" }

/-- C2: the spec requires that when the should-respond gate is false the Turn
Processor terminates with no reply and no state mutation beyond recording the
inbound text — no AI call.  In the code the gate's result
(`greeting_response`, assistant_handler.py:261) is bound and never read, so
with the gate blocking (`gateBlocks = true`) the handler still invokes
`get_chatgpt_response` (aiCalled — the call reaches the OpenAI client's
`assistants.retrieve` before its internal line-42 KeyError turns it into the
static apology), bumps the counter to 2, appends the whole apology response
dictionary to the context alongside the inbound text, stamps the time and
persists the state.  The thread stays `None` (nothing was created), yet the
turn neither terminated at the gate nor confined itself to recording the
inbound text. -/
theorem c2_gate_ignored_ai_still_called :
    envC2.gateBlocks = true ∧
    (get_assistant_response envC2 msgC2).aiCalled = true ∧
    ((get_assistant_response envC2 msgC2).stateAfter.map
      (fun st => st.message_count)) = some 2 ∧
    ((get_assistant_response envC2 msgC2).stateAfter.map
      (fun st => st.messages_context)) =
      some [({ role := "user", content := .str "how much is it?" } : CtxEntry),
            ({ role := "assistant", content := .dict run_error_message } : CtxEntry)] ∧
    ((get_assistant_response envC2 msgC2).stateAfter.map
      (fun st => st.thread_id)) = some none ∧
    (get_assistant_response envC2 msgC2).saved ≠ none := by
  refine ⟨rfl, rfl, rfl, rfl, rfl, by decide⟩

/-- The stored state of the C4 scenario: 10 prior turns, handoff flag down. -/
def stC4 : UserState :=
  { page_id := "p1", message_count := 10, label := [], conversation := [],
    conversation_id := none, new_user := false, thread_id := some "th4",
    run_id := none, messages_context := [], last_message_time := none,
    has_stop_message := false, last_message := "prev", rank := none }

/-- The environment of the C4 scenario: `maxTurns = 10`, end message "Bye!". -/
def envC4 : HandlerEnv :=
  { baseEnv with dbRow := some stC4, maxMessages := 10, endMessage := "Bye!" }

/-- The inbound turn of the C4 scenario. -/
def msgC4 : InboundMsg := { mid := none, text := some "hello again" }

/-- Counterexample to C4: with `turnCount = 10`, `maxTurns = 10` and the
handoff flag (`has_stop_message`) previously `false`, the end path sends the
end message without an AI call and resets the counter to 0 — but it also
sets `has_stop_message` to `true` (assistant_handler.py:334), so the flag is
NOT left untouched by the reset as the claim states. -/
theorem c4_counterexample_stop_flag_flipped :
    stC4.has_stop_message = false ∧
    (get_assistant_response envC4 msgC4).sent = ["Bye!"] ∧
    (get_assistant_response envC4 msgC4).aiCalled = false ∧
    ((get_assistant_response envC4 msgC4).stateAfter.map
      (fun st => st.message_count)) = some 0 ∧
    ((get_assistant_response envC4 msgC4).stateAfter.map
      (fun st => st.has_stop_message)) = some true := by
  refine ⟨rfl, rfl, rfl, rfl, rfl⟩

/-- C4 (amended): when an inbound turn pushes `message_count` past the
channel's max-turns, the configured end message is sent instead of any AI
call, `message_count` resets to exactly 0, and — amending the claim —
`has_stop_message` is set to `true` by the reset rather than left
untouched. -/
theorem c4_end_path_amended (env : HandlerEnv) (msg : InboundMsg)
    (st : UserState) (u : String)
    (hrow : env.dbRow = some st) (htext : msg.text = some u)
    (hmid : msg.mid = none)
    (hmax : st.message_count + 1 > env.maxMessages) :
    get_assistant_response env msg =
      { processed := env.processed, duplicate := false, aiCalled := false,
        sent := [if env.endMessage = "" then default_end_message else env.endMessage],
        saved := some { st with message_count := 0, last_message := u, has_stop_message := true },
        stateAfter := some { st with message_count := 0, last_message := u, has_stop_message := true },
        returnedEnd := true } := by
  unfold get_assistant_response
  rw [hmid, htext, hrow]
  simp only []
  rw [if_pos hmax]

/-- Witness for the amended C4: the concrete scenario `turnCount = 10`,
`maxTurns = 10`, new message → end message "Bye!", counter 0, flag raised,
no AI call. -/
theorem c4_end_path_amended_witness :
    get_assistant_response envC4 msgC4 =
      { processed := envC4.processed, duplicate := false, aiCalled := false,
        sent := [if envC4.endMessage = "" then default_end_message else envC4.endMessage],
        saved := some { stC4 with message_count := 0, last_message := "hello again", has_stop_message := true },
        stateAfter := some { stC4 with message_count := 0, last_message := "hello again", has_stop_message := true },
        returnedEnd := true } :=
  c4_end_path_amended envC4 msgC4 stC4 "hello again" rfl rfl rfl (by decide)

/-- A 20-entry rolling context (already at the claimed bound). -/
def ctx20 : List CtxEntry :=
  List.replicate 20 { role := "user", content := .str "x" }

/-- The stored state of the C5 scenario: context already holds 20 entries. -/
def stC5 : UserState :=
  { page_id := "p1", message_count := 1, label := [], conversation := [],
    conversation_id := none, new_user := false, thread_id := some "th5",
    run_id := none, messages_context := ctx20, last_message_time := none,
    has_stop_message := false, last_message := "prev", rank := none }

/-- The environment of the C5 scenario. -/
def envC5 : HandlerEnv := { baseEnv with dbRow := some stC5 }

/-- The inbound turn of the C5 scenario. -/
def msgC5 : InboundMsg := { mid := none, text := some "hi" }

/-- Counterexample to C5: one turn on the main handler path grows a 20-entry
`messages_context` to 22 entries — the main path (assistant_handler.py:
344-359) appends two entries per turn (the user text and the whole response
dictionary; the appends inside get_chatgpt_response are dead code behind its
line-42 KeyError) and never trims, so the ≤ 20 bound fails there. -/
theorem c5_counterexample_context_exceeds_20 :
    stC5.messages_context.length = 20 ∧
    ((get_assistant_response envC5 msgC5).stateAfter.map
      (fun st => st.messages_context.length)) = some 22 := by
  refine ⟨rfl, rfl⟩

/-- C5 (amended): only the fast message handler bounds `messages_context`:
after its update the context has at most 20 entries and is a suffix of the
appended history (oldest entries dropped first, order preserved); the main
assistant-handler path appends without trimming (see the counterexample). -/
theorem c5_fast_trim_amended (ctx : List CtxEntry) (u r : String) :
    (fast_update_context ctx u r).length ≤ 20 ∧
    List.IsSuffix (fast_update_context ctx u r)
      (ctx ++ [({ role := "user", content := .str u } : CtxEntry),
               ({ role := "assistant", content := .str r } : CtxEntry)]) := by
  unfold fast_update_context fast_trim_context
  constructor
  · split
    · next h => rw [List.length_drop]; omega
    · next h => omega
  · split
    · exact List.drop_suffix _ _
    · exact List.suffix_refl _

/-- The stored state of the C10 scenario: an existing thread, empty context. -/
def stC10 : UserState :=
  { page_id := "p1", message_count := 1, label := [], conversation := [],
    conversation_id := none, new_user := false, thread_id := some "th10",
    run_id := none, messages_context := [], last_message_time := none,
    has_stop_message := false, last_message := "prev", rank := none }

/-- The environment of the C10 witness. -/
def envC10 : HandlerEnv := { baseEnv with dbRow := some stC10 }

/-- The inbound turn of the C10 witness. -/
def msgC10 : InboundMsg := { mid := none, text := some "hi" }

/-- Counterexample to C10: the claimed double append never happens.  The
appends inside `get_chatgpt_response` (handeling_User.py:185-188 and
256-259) are dead code behind its line-42 KeyError, so a turn on the main
handler path adds exactly TWO entries — the user message once (only the
assistant_handler.py:350-353 append runs) and the whole response dictionary
(always the static apology) — not the four entries with the user message and
reply duplicated that the claim describes.  At the concrete turn "hi" the
post-turn context is exactly that two-entry list, with "hi" occurring
once. -/
theorem c10_counterexample_single_append :
    ((get_assistant_response envC10 msgC10).stateAfter.map
      (fun s => s.messages_context)) =
      some [({ role := "user", content := .str "hi" } : CtxEntry),
            ({ role := "assistant", content := .dict run_error_message } : CtxEntry)] ∧
    ((get_assistant_response envC10 msgC10).stateAfter.map
      (fun s => s.messages_context.length)) = some 2 := by
  refine ⟨rfl, rfl⟩

/-- C10 (amended): on the main handler path every turn appends exactly two
entries to `messages_context`: the user message once, as a plain string, and
the whole response dictionary — which is always the static apology, since
`get_chatgpt_response` raises KeyError at handeling_User.py:42 before any of
its own appends — rather than its text.  Context entries are therefore of
mixed shape (string and dict) but not duplicated. -/
theorem c10_single_append_amended (env : HandlerEnv) (msg : InboundMsg)
    (st : UserState) (u : String)
    (hrow : env.dbRow = some st) (htext : msg.text = some u)
    (hmid : msg.mid = none)
    (hcount : ¬ st.message_count + 1 > env.maxMessages) :
    ((get_assistant_response env msg).stateAfter.map
      (fun s => s.messages_context)) =
      some (st.messages_context ++
        [({ role := "user", content := .str u } : CtxEntry),
         ({ role := "assistant", content := .dict run_error_message } : CtxEntry)]) := by
  unfold get_assistant_response
  rw [hmid, htext, hrow]
  simp only []
  rw [if_neg hcount]
  cases hrank : env.sentimentRank <;>
    simp [get_chatgpt_response, get_chatgpt_response_try, hrank]

/-- Witness for the amended C10: the concrete turn "hi" appends the user
string once and the apology dictionary once. -/
theorem c10_single_append_amended_witness :
    ((get_assistant_response envC10 msgC10).stateAfter.map
      (fun s => s.messages_context)) =
      some (stC10.messages_context ++
        [({ role := "user", content := .str "hi" } : CtxEntry),
         ({ role := "assistant", content := .dict run_error_message } : CtxEntry)]) :=
  c10_single_append_amended envC10 msgC10 stC10 "hi" rfl rfl rfl (by decide)

lemma lookupAssoc_exists {α : Type} {l : List (String × α)} {k : String} {v : α}
    (h : lookupAssoc l k = some v) : ∃ kv ∈ l, kv.2 = v := by
  unfold lookupAssoc at h
  rw [Option.map_eq_some'] at h
  obtain ⟨kv, hfind, hv⟩ := h
  exact ⟨kv, List.mem_of_find?_eq_some hfind, hv⟩

lemma queueInv_nil : QueueInv [] := by
  intro kv hkv
  cases hkv

lemma queueInv_setAssoc {q : List (String × BatchEntry)} {k : String}
    {e : BatchEntry} (hInv : QueueInv q) (he : e.user_messages_queue ≠ []) :
    QueueInv (setAssoc q k e) := by
  intro kv hkv
  rcases mem_setAssoc hkv with h | h
  · exact hInv kv h
  · rw [h]
    exact he

/-- Reachability: `merge_user_messages` keeps every pending batch non-empty. -/
lemma queueInv_merge (q : List (String × BatchEntry)) (s : String)
    (txt : Option String) (p : String) (tEntry tCheck : Nat)
    (hInv : QueueInv q) :
    QueueInv (merge_user_messages q s txt p tEntry tCheck).queue := by
  unfold merge_user_messages
  cases txt with
  | none => exact hInv
  | some t =>
    simp only []
    have hinvSet : QueueInv (setAssoc q s
        (match lookupAssoc q s with
         | some e0 => { e0 with user_messages_queue := e0.user_messages_queue ++ [t] }
         | none => { page_id := p, user_messages_queue := [t],
                     first_message_time := tEntry })) := by
      apply queueInv_setAssoc hInv
      cases hq : lookupAssoc q s <;> simp
    split
    · intro kv hkv
      exact hinvSet kv (mem_removeAssoc hkv)
    · exact hinvSet

/-- Reachability: the background sweep only removes entries. -/
lemma queueInv_sweep (q : List (String × BatchEntry)) (now : Nat)
    (hInv : QueueInv q) :
    QueueInv (process_message_queue_once q now).1 := by
  intro kv hkv
  exact hInv kv (List.mem_of_mem_filter hkv)

/-- The value `messages_queue[senderPSID]` holds right after the append of a
`merge_user_messages` call (lines 263-271): either the existing entry with
the new text appended, or a fresh single-message entry stamped with
`current_unix_time`. -/
def postBatchEntry (q : List (String × BatchEntry)) (s t p : String)
    (tEntry : Nat) : BatchEntry :=
  match lookupAssoc q s with
  | some e0 => { e0 with user_messages_queue := e0.user_messages_queue ++ [t] }
  | none =>
    { page_id := p, user_messages_queue := [t], first_message_time := tEntry }

/-- C3: for every call to the Batching Queue's add operation on a reachable
queue (`QueueInv`: every pending batch is non-empty; the call itself takes
under 30s, `tCheck - tEntry < 30`), a flush occurs exactly when the
accumulated message count reaches 2 or 30s have elapsed since the batch's
`first_message_time`; and the flushed turn is the accumulated messages
joined by a single space in arrival order. -/
theorem c3_flush_iff_count_or_age (q : List (String × BatchEntry))
    (s t p : String) (tEntry tCheck : Nat)
    (hInv : QueueInv q) (hcall : tCheck - tEntry < 30) :
    ((merge_user_messages q s (some t) p tEntry tCheck).flushed.isSome = true ↔
      (2 ≤ (postBatchEntry q s t p tEntry).user_messages_queue.length ∨
        30 ≤ tCheck - (postBatchEntry q s t p tEntry).first_message_time)) ∧
    (∀ m, (merge_user_messages q s (some t) p tEntry tCheck).flushed = some m →
      m = String.intercalate " "
        (postBatchEntry q s t p tEntry).user_messages_queue) := by
  unfold merge_user_messages postBatchEntry
  cases hq : lookupAssoc q s with
  | none =>
    simp only []
    rw [if_neg (by simp; omega)]
    constructor
    · simp
      omega
    · intro m hm
      cases hm
  | some e0 =>
    simp only []
    obtain ⟨kv, hkv, hv⟩ := lookupAssoc_exists hq
    have hne : e0.user_messages_queue ≠ [] := hv ▸ hInv kv hkv
    have hlen : 1 ≤ e0.user_messages_queue.length :=
      List.length_pos.mpr hne
    have h2 : 2 ≤ (e0.user_messages_queue ++ [t]).length := by
      simp only [List.length_append, List.length_singleton]
      omega
    rw [if_pos (by simp; omega)]
    constructor
    · simp
      omega
    · intro m hm
      simpa using hm.symm

/-- The queue of the C3 witness: user "u1" already has one pending message. -/
def queueC3 : List (String × BatchEntry) :=
  [("u1", { page_id := "p", user_messages_queue := ["hi"], first_message_time := 5 })]

/-- Witness for C3: adding a second message at time 6 flushes the batch as
"hi yo". -/
theorem c3_flush_iff_count_or_age_witness :
    ((merge_user_messages queueC3 "u1" (some "yo") "p" 6 6).flushed.isSome = true ↔
      (2 ≤ (postBatchEntry queueC3 "u1" "yo" "p" 6).user_messages_queue.length ∨
        30 ≤ 6 - (postBatchEntry queueC3 "u1" "yo" "p" 6).first_message_time)) ∧
    (∀ m, (merge_user_messages queueC3 "u1" (some "yo") "p" 6 6).flushed = some m →
      m = String.intercalate " "
        (postBatchEntry queueC3 "u1" "yo" "p" 6).user_messages_queue) :=
  c3_flush_iff_count_or_age queueC3 "u1" "yo" "p" 6 6
    (by intro kv hkv
        simp only [queueC3, List.mem_singleton] at hkv
        subst hkv
        decide)
    (by decide)

/-- C7: at no point are two runs submitted concurrently against the same
external session, and a turn arriving while a run is active never submits
without first awaiting it.  The property holds degenerately: every
`get_chatgpt_response` call raises KeyError at handeling_User.py:42 and
returns the static apology before reaching `runs.create` (lines 123/214) or
`threads.create` (line 80), so no call EVER submits a run or touches a
session (`runSubmitted = false`, `threadUsed = none`, state returned
untouched) — zero submissions means no two of them are concurrent, and the
await-before-submit obligation (the wait loop of lines 190-216, dead code)
is never triggered because this program also never puts a run into
`queued`/`in_progress`. -/
theorem c7_no_run_ever_submitted (svc : AiService) (greetingCfg userMessage : String)
    (globalThread : Option String) (st : UserState) :
    (get_chatgpt_response svc greetingCfg userMessage globalThread st).runSubmitted
      = false ∧
    (get_chatgpt_response svc greetingCfg userMessage globalThread st).threadUsed
      = none ∧
    (get_chatgpt_response svc greetingCfg userMessage globalThread st).respondText
      = run_error_message ∧
    (get_chatgpt_response svc greetingCfg userMessage globalThread st).state = st := by
  refine ⟨rfl, rfl, rfl, rfl⟩

/-- Stored row of user "u1" on channel "A" with its own thread. -/
def rowA : DbRow :=
  { sender_id := "u1", page_id := "A", message_count := 3, labels := [],
    conversation := [], conversation_id := none, is_new_user := false,
    thread_id := some "thA", run_id := none, messages_context := [],
    has_stop_message := false, last_message := "ha", rank := none }

/-- Stored row of the same user "u1" on a different channel "B". -/
def rowB : DbRow :=
  { sender_id := "u1", page_id := "B", message_count := 7, labels := [],
    conversation := [], conversation_id := none, is_new_user := false,
    thread_id := some "thB", run_id := none, messages_context := [],
    has_stop_message := false, last_message := "hb", rank := none }

/-- A store holding both channels' state for user "u1". -/
def dbC8 : List DbRow := [rowA, rowB]

/-- An in-memory state for (u1, B) about to be saved. -/
def stSaveB : UserState :=
  { page_id := "B", message_count := 8, label := [], conversation := [],
    conversation_id := none, new_user := false, thread_id := some "thB",
    run_id := none, messages_context := [], last_message_time := none,
    has_stop_message := false, last_message := "hb2", rank := none }

/-- Counterexample to C8: saving the state of (u1, channel B) destroys the
state of (u1, channel A): `save_user_state_to_db` updates with
`WHERE sender_id = %s` only (db_persistence_fixed.py:96-117), so after the
save the load of (u1, A) — which was `rowA` before — finds nothing: channel
A's row was overwritten with channel B's state. -/
theorem c8_counterexample_save_overwrites_other_channel :
    load_user_state_row dbC8 "u1" "A" = some rowA ∧
    load_user_state_row (save_user_state_to_db dbC8 "u1" stSaveB) "u1" "A" = none := by
  refine ⟨by decide, by decide⟩

/-- C8 (amended): the state-row load reads exactly the (sender, channel)
pair — any row it returns carries that sender and that channel — but the
save keys on the sender alone: whenever any row of `sender` exists, the save
rewrites EVERY row of that sender, whatever channel it belonged to, with the
new state.  So loading never reads a different channel's state, while saving
does overwrite the same user's state on every other channel. -/
theorem c8_load_by_pair_save_by_sender_amended (db : List DbRow)
    (sender : String) (st : UserState) (r : DbRow)
    (hmem : r ∈ db) (hs : r.sender_id = sender) :
    save_user_state_to_db db sender st =
      db.map (fun r0 => if r0.sender_id = sender then rowOfState sender st else r0) ∧
    (∀ s p r', load_user_state_row db s p = some r' →
      r'.sender_id = s ∧ r'.page_id = p) := by
  constructor
  · unfold save_user_state_to_db
    rw [if_pos]
    rw [List.any_eq_true]
    exact ⟨r, hmem, by simp [hs]⟩
  · intro s p r' hload
    have h := List.find?_some hload
    simpa using h

/-- Witness for the amended C8 at the concrete store `dbC8`. -/
theorem c8_load_by_pair_save_by_sender_amended_witness :
    save_user_state_to_db dbC8 "u1" stSaveB =
      dbC8.map (fun r0 => if r0.sender_id = "u1" then rowOfState "u1" stSaveB else r0) ∧
    (∀ s p r', load_user_state_row dbC8 s p = some r' →
      r'.sender_id = s ∧ r'.page_id = p) :=
  c8_load_by_pair_save_by_sender_amended dbC8 "u1" stSaveB rowA
    (by decide) (by decide)

lemma thread_turn_apology (maps : MemoryMaps) (svc : AiService)
    (g s p u : String) (st : UserState)
    (hst : lookupAssoc maps.user_state s = some st) :
    (thread_turn maps svc g s p u).2 = (none, false) ∧
    lookupAssoc (thread_turn maps svc g s p u).1.user_state s = some st ∧
    (thread_turn maps svc g s p u).1.user_threads = maps.user_threads := by
  unfold thread_turn
  rw [hst]
  simp only []
  -- the get_chatgpt_response call resolves to the apology record: state
  -- returned untouched, no thread used, nothing created
  exact ⟨rfl, lookup_setAssoc_self maps.user_state s st, rfl⟩

lemma lookup_after_turns (maps : MemoryMaps) (svcs : Nat → AiService)
    (g s p : String) (us : Nat → String) (st : UserState)
    (hst : lookupAssoc maps.user_state s = some st) (n : Nat) :
    lookupAssoc (mapsAfterTurns maps svcs g s p us n).user_state s = some st := by
  induction n with
  | zero => exact hst
  | succ k ih =>
    exact (thread_turn_apology (mapsAfterTurns maps svcs g s p us k)
      (svcs k) g s p (us k) st ih).2.1

/-- The stored row of the C6 scenarios: user "1" on page "2", thread "th6". -/
def rowC6 : DbRow :=
  { sender_id := "1", page_id := "2", message_count := 4, labels := [],
    conversation := [], conversation_id := none, is_new_user := false,
    thread_id := some "th6", run_id := none, messages_context := [],
    has_stop_message := false, last_message := "m", rank := none }

/-- Counterexample to C6: after restoring the snapshot `[rowC6]`, whose
ConversationState carries the non-null session handle "th6", the next turn
for ("1", "2") submits to NO session at all (`threadUsed = none`, not
`some "th6"`): `get_chatgpt_response` raises KeyError at
handeling_User.py:42 and returns the static apology before any
`messages.create`/`runs.create`, so the restored session id is never
actually used — refuting "every subsequent turn submits to that exact
session id". -/
theorem c6_counterexample_no_submission :
    (stateOfRow rowC6).thread_id = some "th6" ∧
    lookupAssoc (restore_user_states_from_database [rowC6]).user_state "1"
      = some (stateOfRow rowC6) ∧
    turnOutcome (restore_user_states_from_database [rowC6])
      (fun _ => baseSvc) "" "1" "2" (fun _ => "hi") 0 = (none, false) := by
  refine ⟨rfl, by decide, by decide⟩

/-- C6 (amended): for every ConversationState restored from the Conversation
Store with a non-null `thread_id`, the restored handle is kept intact in the
in-memory state across every subsequent turn and no turn ever creates a new
external session (`createdThread = false`) — but no turn submits to the
stored session either (`threadUsed = none`): every `get_chatgpt_response`
call dies at handeling_User.py:42 with the static apology before reaching
the session, so the stored id is preserved yet never exercised. -/
theorem c6_thread_kept_never_submitted_amended (rows : List DbRow)
    (s p t : String) (st : UserState)
    (hlook : lookupAssoc (restore_user_states_from_database rows).user_state s
      = some st)
    (hthr : st.thread_id = some t)
    (svcs : Nat → AiService) (g : String) (us : Nat → String) (n : Nat) :
    turnOutcome (restore_user_states_from_database rows) svcs g s p us n
      = (none, false) ∧
    ((lookupAssoc (mapsAfterTurns (restore_user_states_from_database rows)
        svcs g s p us n).user_state s).map (fun st0 => st0.thread_id))
      = some (some t) := by
  have hn := lookup_after_turns (restore_user_states_from_database rows)
    svcs g s p us st hlook n
  refine ⟨(thread_turn_apology _ (svcs n) g s p (us n) st hn).1, ?_⟩
  rw [hn]
  simp [hthr]

/-- Witness for the amended C6: after restoring `[rowC6]`, the third turn
for ("1", "2") submits to nothing, creates nothing, and the state still
holds "th6". -/
theorem c6_thread_kept_never_submitted_amended_witness :
    turnOutcome (restore_user_states_from_database [rowC6])
      (fun _ => baseSvc) "" "1" "2" (fun _ => "hi") 2 = (none, false) ∧
    ((lookupAssoc (mapsAfterTurns (restore_user_states_from_database [rowC6])
        (fun _ => baseSvc) "" "1" "2" (fun _ => "hi") 2).user_state "1").map
      (fun st0 => st0.thread_id)) = some (some "th6") :=
  c6_thread_kept_never_submitted_amended [rowC6] "1" "2" "th6"
    (stateOfRow rowC6) (by decide) rfl (fun _ => baseSvc) "" (fun _ => "hi") 2
